import Mathlib

/-!
Verification of the nutrition/wellness computation core of the
`wellness_app` repository (files `app.py`, `app_utils/goals.py`,
`features/insights.py`).

The Python code is shallowly embedded over exact rationals (`ℚ`): Python
floats become `ℚ`, Python `round(x, n)` becomes exact round-half-to-even
at `n` decimal digits, `np.clip(x, lo, hi)` becomes `max lo (min x hi)`,
Python `None` / pandas NaN become `Option.none`, and dict lookups become
`List.lookup` over association lists copied verbatim from the source.
-/

/-- Python `round` to the nearest integer: round-half-to-even
(banker's rounding), on exact rationals. -/
def bankersRound (x : ℚ) : ℤ :=
  let f := ⌊x⌋
  let r := x - f
  if r < 1/2 then f
  else if 1/2 < r then f + 1
  else if f % 2 = 0 then f else f + 1

/-- Python `round(x, 1)`: round to one decimal digit, half to even. -/
def pyRound1 (x : ℚ) : ℚ := (bankersRound (10 * x) : ℚ) / 10

/-- Python `round(x, 0)`: round to the nearest integer, half to even,
kept as a rational (Python keeps it a float). -/
def pyRound0 (x : ℚ) : ℚ := (bankersRound x : ℚ)

/-- Embedding of `np.clip(x, lo, hi)` on exact rationals. -/
def npClip (lo hi x : ℚ) : ℚ := max lo (min x hi)

/-- An entry of `ING_DB` (app.py): nutrients per 100 g and the
dimensionless reflux-load ("gerd") coefficient. -/
structure Ingredient where
  protein : ℚ
  carbs : ℚ
  fat : ℚ
  kcal : ℚ
  gerd : ℚ
deriving DecidableEq, Repr

/-- The static ingredient table `ING_DB` from app.py, copied entry by
entry (nutrients per 100 g). -/
def ING_DB : List (String × Ingredient) := [
  ("egg_whole",         ⟨12.6, 1.1,  10.0, 143, 0.05⟩),
  ("egg_white",         ⟨11.0, 0.7,  0.2,  52,  0.02⟩),
  ("milk_2pct",         ⟨3.4,  4.8,  2.0,  50,  0.05⟩),
  ("curd_plain",        ⟨4.0,  4.0,  3.0,  60,  -0.03⟩),
  ("yogurt_plain",      ⟨10.0, 6.0,  3.0,  100, -0.05⟩),
  ("buttermilk",        ⟨3.0,  5.0,  1.0,  35,  -0.02⟩),
  ("whey_powder",       ⟨80.0, 8.0,  6.0,  400, 0.05⟩),
  ("rice_cooked",       ⟨2.7,  28.0, 0.3,  130, 0.00⟩),
  ("brown_rice_cooked", ⟨2.6,  23.0, 1.0,  110, 0.00⟩),
  ("poha_cooked",       ⟨2.0,  20.0, 3.0,  115, 0.05⟩),
  ("upma_cooked",       ⟨3.0,  18.0, 4.0,  120, 0.05⟩),
  ("oats_cooked",       ⟨2.4,  12.0, 1.4,  71,  -0.05⟩),
  ("roti",              ⟨8.0,  45.0, 3.0,  250, 0.05⟩),
  ("phulka",            ⟨8.0,  47.0, 2.5,  240, 0.05⟩),
  ("paratha",           ⟨7.0,  40.0, 12.0, 300, 0.15⟩),
  ("thepla",            ⟨8.0,  40.0, 8.0,  260, 0.12⟩),
  ("bread",             ⟨9.0,  49.0, 3.2,  265, 0.10⟩),
  ("dal_cooked",        ⟨9.0,  20.0, 0.5,  120, 0.05⟩),
  ("rajma_cooked",      ⟨8.5,  22.0, 0.7,  127, 0.08⟩),
  ("chole_cooked",      ⟨9.0,  27.0, 2.5,  164, 0.12⟩),
  ("moong_sprouts",     ⟨3.0,  6.0,  0.2,  35,  0.02⟩),
  ("chicken_cooked",    ⟨27.0, 0.0,  4.0,  165, 0.05⟩),
  ("fish_cooked",       ⟨22.0, 0.0,  5.0,  130, 0.05⟩),
  ("paneer",            ⟨18.0, 2.0,  20.0, 265, 0.10⟩),
  ("tofu",              ⟨8.0,  2.0,  5.0,  80,  0.03⟩),
  ("oil",               ⟨0.0,  0.0,  100.0, 900, 0.20⟩),
  ("ghee",              ⟨0.0,  0.0,  100.0, 900, 0.22⟩),
  ("veg_curry",         ⟨2.0,  8.0,  4.0,  80,  0.10⟩),
  ("bhaji",             ⟨2.5,  10.0, 6.0,  105, 0.12⟩),
  ("sambar",            ⟨4.0,  10.0, 2.0,  70,  0.08⟩),
  ("banana",            ⟨1.1,  23.0, 0.3,  89,  -0.03⟩),
  ("fruit_mixed",       ⟨0.8,  14.0, 0.2,  60,  -0.04⟩),
  ("nuts_mixed",        ⟨18.0, 16.0, 50.0, 600, 0.10⟩),
  ("dhokla",            ⟨7.0,  25.0, 4.0,  160, 0.10⟩),
  ("khandvi",           ⟨8.0,  18.0, 6.0,  160, 0.10⟩),
  ("fafda",             ⟨7.0,  40.0, 18.0, 340, 0.25⟩),
  ("handvo",            ⟨8.0,  22.0, 9.0,  210, 0.18⟩),
  ("khakhra",           ⟨10.0, 65.0, 8.0,  360, 0.10⟩),
  ("undhiyu",           ⟨3.0,  12.0, 7.0,  120, 0.12⟩),
  ("sev",               ⟨12.0, 50.0, 25.0, 470, 0.25⟩),
  ("idli",              ⟨4.0,  20.0, 1.0,  100, 0.05⟩),
  ("dosa",              ⟨5.0,  25.0, 6.0,  170, 0.10⟩),
  ("pav_bhaji",         ⟨6.0,  25.0, 8.0,  190, 0.25⟩),
  ("vada_pav",          ⟨6.0,  30.0, 12.0, 250, 0.30⟩),
  ("samosa",            ⟨5.0,  30.0, 12.0, 260, 0.30⟩),
  ("pizza",             ⟨11.0, 33.0, 10.0, 285, 0.30⟩),
  ("burger",            ⟨13.0, 24.0, 13.0, 250, 0.30⟩),
  ("fries",             ⟨3.4,  41.0, 15.0, 312, 0.35⟩),
  ("black_coffee",      ⟨0.1,  0.0,  0.0,  2,   0.20⟩),
  ("tea",               ⟨0.5,  2.0,  0.5,  15,  0.10⟩)]

/-- The static recipe table `DISH_RECIPES` from app.py: dish name to
list of (ingredient, reference grams) pairs, copied verbatim. -/
def DISH_RECIPES : List (String × List (String × ℚ)) := [
  ("omelette",           [("egg_whole", 120), ("oil", 5)]),
  ("boiled_eggs_2",      [("egg_whole", 100)]),
  ("oats_bowl",          [("oats_cooked", 300), ("milk_2pct", 200), ("banana", 120)]),
  ("poha",               [("poha_cooked", 300), ("oil", 5)]),
  ("upma",               [("upma_cooked", 300), ("oil", 5)]),
  ("idli_sambar",        [("idli", 200), ("sambar", 250)]),
  ("dosa_sambar",        [("dosa", 180), ("sambar", 250)]),
  ("dal_rice",           [("dal_cooked", 250), ("rice_cooked", 250), ("oil", 5)]),
  ("rajma_rice",         [("rajma_cooked", 250), ("rice_cooked", 250), ("oil", 5)]),
  ("chole_rice",         [("chole_cooked", 250), ("rice_cooked", 250), ("oil", 5)]),
  ("roti_veg_curry",     [("roti", 160), ("veg_curry", 250)]),
  ("roti_dal",           [("roti", 160), ("dal_cooked", 250)]),
  ("paratha_curd",       [("paratha", 180), ("curd_plain", 200)]),
  ("thepla_curd",        [("thepla", 160), ("curd_plain", 200)]),
  ("egg_curry",          [("egg_whole", 120), ("veg_curry", 200), ("oil", 10)]),
  ("chicken_curry_rice", [("chicken_cooked", 150), ("veg_curry", 200), ("rice_cooked", 250), ("oil", 10)]),
  ("biryani_chicken",    [("rice_cooked", 300), ("chicken_cooked", 150), ("oil", 12)]),
  ("paneer_curry_roti",  [("paneer", 150), ("veg_curry", 200), ("roti", 160)]),
  ("tofu_curry_roti",    [("tofu", 180), ("veg_curry", 200), ("roti", 160)]),
  ("dhokla_plate",       [("dhokla", 200)]),
  ("khandvi_plate",      [("khandvi", 200)]),
  ("handvo_slice",       [("handvo", 180)]),
  ("fafda",              [("fafda", 120)]),
  ("khakhra_snack",      [("khakhra", 60)]),
  ("undhiyu_roti",       [("undhiyu", 300), ("roti", 160)]),
  ("sev_snack",          [("sev", 40)]),
  ("pav_bhaji",          [("pav_bhaji", 350)]),
  ("vada_pav",           [("vada_pav", 200)]),
  ("samosa",             [("samosa", 150)]),
  ("protein_shake",      [("whey_powder", 30), ("milk_2pct", 250)]),
  ("banana_milk_shake",  [("milk_2pct", 350), ("banana", 180)]),
  ("curd_bowl",          [("curd_plain", 300), ("banana", 120), ("nuts_mixed", 25)]),
  ("pizza",              [("pizza", 250)]),
  ("burger",             [("burger", 220)]),
  ("fries",              [("fries", 180)])]

/-- Running totals of the accumulation loop in `macros_for_dish`
(app.py): carbs, protein, fat, kcal and reflux-load, before rounding
and clamping. -/
structure MacroAcc where
  carbs : ℚ
  protein : ℚ
  fat : ℚ
  kcal : ℚ
  gerd : ℚ
deriving DecidableEq, Repr

/-- One iteration of the loop body of `macros_for_dish`: look the
ingredient up in `ING_DB` (skipping it when missing), compute
`used_g = g * scale`, `factor = used_g / 100`, and add
`base.nutrient * factor` to each nutrient and
`base.gerd * (used_g / refTotal)` to the reflux-load. -/
def accIngredient (scale refTotal : ℚ) (acc : MacroAcc) (item : String × ℚ) : MacroAcc :=
  match ING_DB.lookup item.1 with
  | none => acc
  | some base =>
    let used_g := item.2 * scale
    let factor := used_g / 100
    ⟨acc.carbs + base.carbs * factor,
     acc.protein + base.protein * factor,
     acc.fat + base.fat * factor,
     acc.kcal + base.kcal * factor,
     acc.gerd + base.gerd * (used_g / refTotal)⟩

/-- The reference total of a recipe: the sum of reference weights, or 1
when that sum is `≤ 0` (the `if ref_total <= 0: ref_total = 1.0` guard
of `macros_for_dish`). -/
def refTotalOf (recipe : List (String × ℚ)) : ℚ :=
  let t := (recipe.map Prod.snd).sum
  if t ≤ 0 then 1 else t

/-- The pre-rounding accumulation of `macros_for_dish` for a given
recipe and serving weight: `scale = grams / ref_total`, then the fold
of `accIngredient` over the recipe starting from all-zero totals. -/
def macrosAcc (recipe : List (String × ℚ)) (grams : ℚ) : MacroAcc :=
  let refTotal := refTotalOf recipe
  let scale := grams / refTotal
  recipe.foldl (accIngredient scale refTotal) ⟨0, 0, 0, 0, 0⟩

/-- The result record of `macros_for_dish`. -/
structure MacroResult where
  carbs_g : ℚ
  protein_g : ℚ
  fat_g : ℚ
  kcal : ℚ
  gerd : ℚ
deriving DecidableEq, Repr

/-- Embedding of `macros_for_dish(dish_name, grams)` from app.py: an unknown dish
returns the all-zero record; otherwise the recipe is scaled and
accumulated, carbs/protein/fat are rounded to 1 decimal, kcal to the
nearest integer, and the reflux-load is clamped to `[-0.3, 1.0]`. -/
def macros_for_dish (dish_name : String) (grams : ℚ) : MacroResult :=
  match DISH_RECIPES.lookup dish_name with
  | none => ⟨0.0, 0.0, 0.0, 0.0, 0.0⟩
  | some recipe =>
    let acc := macrosAcc recipe grams
    ⟨pyRound1 acc.carbs, pyRound1 acc.protein, pyRound1 acc.fat,
     pyRound0 acc.kcal, npClip (-0.3) 1.0 acc.gerd⟩

/-- Embedding of `clamp01(x)` from app.py: `np.clip(x, 0.0, 1.0)`. -/
def clamp01 (x : ℚ) : ℚ := npClip 0 1 x

/-- Embedding of `wellness_index_generic` from app.py: five clamped sub-scores,
a weighted sum (weights 0.30/0.20/0.25/0.15/0.10), times 100, rounded
to 1 decimal. -/
def wellness_index_generic (kcal protein_g sleep_h exercise_min stress_0_10 : ℚ) : ℚ :=
  let sleep_score := clamp01 (1 - |sleep_h - 7.5| / 4.0)
  let exercise_score := clamp01 (min exercise_min 60 / 60.0)
  let stress_score := clamp01 (1 - stress_0_10 / 10.0)
  let protein_score := clamp01 (min protein_g 120 / 120.0)
  let kcal_score := clamp01 (min kcal 3200 / 3200.0)
  let score :=
    0.30 * sleep_score +
    0.20 * exercise_score +
    0.25 * stress_score +
    0.15 * protein_score +
    0.10 * kcal_score
  pyRound1 (100 * score)

/-- The plan summary computed inline in `goal_panel` (app.py lines
684-686): days left, total weight change, per-day change. -/
structure GoalPlan where
  days_left : ℤ
  kg_change : ℚ
  per_day : ℚ
deriving DecidableEq, Repr

/-- The arithmetic of `goal_panel` (app.py): dates are modelled as day
ordinals in `ℤ`, so `(target_d - date.today()).days` is `target_d -
today`; `days_left = max(1, ...)`, `kg_change = target_w - start_w`,
`per_day = kg_change / days_left`. -/
def goalPlanCalc (start_w target_w : ℚ) (target_d today : ℤ) : GoalPlan :=
  let days_left := max 1 (target_d - today)
  { days_left := days_left
    kg_change := target_w - start_w
    per_day := (target_w - start_w) / (days_left : ℚ) }

/-- Embedding of `daily_weight_change` from app_utils/goals.py. -/
def daily_weight_change (target_kg current_kg days_left : ℚ) : ℚ :=
  if days_left ≤ 0 then 0.0
  else (target_kg - current_kg) / days_left

/-- Embedding of `protein_target` from app_utils/goals.py. -/
def protein_target (weight : ℚ) (goal_type : String) : ℚ :=
  if goal_type = "gain" then pyRound1 (weight * 1.8)
  else if goal_type = "loss" then pyRound1 (weight * 1.6)
  else pyRound1 (weight * 1.5)

/-- One row of the DataFrame consumed by `week_summary`
(features/insights.py): the `date` column after `pd.to_datetime(...,
errors="coerce")` is modelled as an `Option ℤ` day ordinal (`none` =
unparseable, dropped by `dropna`); the `wellness`, `protein` and
`weight` columns are floats with NaN, modelled as `Option ℚ`. -/
structure LogRec where
  date : Option ℤ
  wellness : Option ℚ
  protein : Option ℚ
  weight : Option ℚ
deriving DecidableEq, Repr

/-- The sort key of a record: its parsed date (0 for the unparseable
records, which are dropped before sorting). -/
def dateKey (r : LogRec) : ℤ := r.date.getD 0

/-- Insert a record into a date-sorted list, keeping it after records
with an earlier-or-equal date. -/
def insertByDate (r : LogRec) : List LogRec → List LogRec
  | [] => [r]
  | x :: xs => if dateKey x ≤ dateKey r then x :: insertByDate r xs else r :: x :: xs

/-- Embedding of `d.sort_values("date")`: sort the records by ascending date. -/
def sortByDate (l : List LogRec) : List LogRec := l.foldr insertByDate []

/-- The trailing window of `week_summary`: drop records whose date did
not parse, sort by date, take the last 7 (`d.dropna(subset=["date"])
.sort_values("date")` then `.tail(7)`). -/
def weekWindow (df : List LogRec) : List LogRec :=
  let d := df.filter (fun r => r.date.isSome)
  let sorted := sortByDate d
  sorted.drop (sorted.length - 7)

/-- Pandas `Series.mean()` over a float column with NaN: the mean of
the present values, NaN (here `none`) when no value is present. -/
def nanMean (l : List (Option ℚ)) : Option ℚ :=
  let vs := l.filterMap id
  if vs.isEmpty then none else some (vs.sum / vs.length)

/-- The result record of `week_summary`; `none` models both Python
`None` and a NaN float. -/
structure WeekOut where
  avg_wellness : Option ℚ
  avg_protein : Option ℚ
  weight_change : Option ℚ
deriving DecidableEq, Repr

/-- NaN-propagating subtraction `a - b` of the first and last
`weight` cells (`last7["weight"].iloc[-1] - last7["weight"].iloc[0]`):
`none` when either cell is missing. -/
def optSub (a b : Option ℚ) : Option ℚ :=
  match a, b with
  | some x, some y => some (x - y)
  | _, _ => none

/-- Embedding of `week_summary(df)` from features/insights.py. The DataFrame columns
`date`, `wellness`, `protein`, `weight` are always present (the
function's own comment: "expects columns: date, wellness, protein,
weight"), so the `"wellness" in last7` style column checks are true and
the field means are NaN-skipping means over the window. -/
def week_summary (df : List LogRec) : Option WeekOut :=
  if df.isEmpty then none
  else
    let last7 := weekWindow df
    if last7.isEmpty then none
    else some
      { avg_wellness := nanMean (last7.map (·.wellness))
        avg_protein := nanMean (last7.map (·.protein))
        weight_change :=
          if 2 ≤ (last7.filterMap (·.weight)).length then
            optSub ((last7.getLast?).bind (·.weight)) ((last7.head?).bind (·.weight))
          else none }

/-- The twelve optional columns of the `daily` table that `upsert_daily`
(app.py) writes: `data = {c: kwargs.get(c, None) for c in cols}` makes
an unsupplied keyword indistinguishable from an explicit `None`, so the
supplied arguments are exactly a record of `Option` fields. -/
structure DailyFields where
  weight_kg : Option ℚ
  sleep_hours : Option ℚ
  exercise_min : Option ℚ
  mood : Option ℤ
  stress : Option ℤ
  gerd_symptom : Option ℤ
  glucose_mgdl : Option ℚ
  period_day : Option ℤ
  period_flow : Option String
  period_symptoms : Option String
  insulin_units : Option ℚ
  extra_notes : Option String
deriving DecidableEq, Repr

/-- A logical row of the `daily` table: the `(person, log_date)` key
plus the twelve optional columns (the auto-increment surrogate id is
not part of the row's logical content). -/
structure DailyRow where
  person : String
  log_date : String
  fields : DailyFields
deriving DecidableEq, Repr

/-- Whether a row matches the `(person, log_date)` key of an upsert
(the `WHERE person=? AND log_date=?` condition). -/
def dailyMatch (p d : String) (r : DailyRow) : Bool :=
  r.person == p && r.log_date == d

/-- Embedding of `upsert_daily(person, log_date, **kwargs)` from app.py over a list
model of the `daily` table: if a row with the key exists, `UPDATE` sets
all twelve optional columns of every matching row to the supplied data;
otherwise `INSERT` appends a new row. -/
def upsert_daily (s : List DailyRow) (p d : String) (data : DailyFields) : List DailyRow :=
  if s.any (dailyMatch p d) then
    s.map (fun r => if dailyMatch p d r then ⟨r.person, r.log_date, data⟩ else r)
  else s ++ [⟨p, d, data⟩]

/-- Lower bound for banker's rounding: an integer lower bound of the
argument bounds the result. -/
lemma le_bankersRound {n : ℤ} {x : ℚ} (h : (n : ℚ) ≤ x) : n ≤ bankersRound x := by
  have hf : n ≤ ⌊x⌋ := Int.le_floor.mpr h
  unfold bankersRound
  dsimp only
  split_ifs <;> omega

/-- Upper bound for banker's rounding: an integer upper bound of the
argument bounds the result. -/
lemma bankersRound_le {n : ℤ} {x : ℚ} (h : x ≤ (n : ℚ)) : bankersRound x ≤ n := by
  have hf : ⌊x⌋ ≤ n := by
    have := Int.floor_le_floor h
    simpa using this
  unfold bankersRound
  dsimp only
  split_ifs with h1 h2 h3
  · exact hf
  · -- the fractional part is at least 1/2, so the floor is strictly below n
    have hx : (⌊x⌋ : ℚ) + 1/2 ≤ x := by linarith [not_lt.mp h1]
    have hlt : (⌊x⌋ : ℚ) < (n : ℚ) := by linarith
    have : ⌊x⌋ < n := by exact_mod_cast hlt
    omega
  · exact hf
  · have hx : (⌊x⌋ : ℚ) + 1/2 ≤ x := by linarith [not_lt.mp h1]
    have hlt : (⌊x⌋ : ℚ) < (n : ℚ) := by linarith
    have : ⌊x⌋ < n := by exact_mod_cast hlt
    omega

/-- Rounding `round(y, 1)` of a nonnegative value is nonnegative. -/
lemma pyRound1_nonneg {y : ℚ} (h : 0 ≤ y) : 0 ≤ pyRound1 y := by
  have h10 : (0 : ℚ) ≤ 10 * y := by linarith
  have hb : (0 : ℤ) ≤ bankersRound (10 * y) := le_bankersRound (by exact_mod_cast h10)
  have : (0 : ℚ) ≤ (bankersRound (10 * y) : ℚ) := by exact_mod_cast hb
  unfold pyRound1
  linarith

/-- Rounding `round(y, 1)` of a value at most 100 is at most 100. -/
lemma pyRound1_le_100 {y : ℚ} (h : y ≤ 100) : pyRound1 y ≤ 100 := by
  have h10 : 10 * y ≤ ((1000 : ℤ) : ℚ) := by push_cast; linarith
  have hb : bankersRound (10 * y) ≤ (1000 : ℤ) := bankersRound_le h10
  have : (bankersRound (10 * y) : ℚ) ≤ 1000 := by exact_mod_cast hb
  unfold pyRound1
  linarith

/-- The function `clamp01` is nonnegative. -/
lemma clamp01_nonneg (x : ℚ) : 0 ≤ clamp01 x := le_max_left _ _

/-- The function `clamp01` is at most one. -/
lemma clamp01_le_one (x : ℚ) : clamp01 x ≤ 1 :=
  max_le zero_le_one (min_le_right _ _)

/-- The guarded reference total of a recipe is positive. -/
lemma refTotalOf_pos (recipe : List (String × ℚ)) : 0 < refTotalOf recipe := by
  unfold refTotalOf
  dsimp only
  split_ifs with h
  · norm_num
  · exact lt_of_not_le h

/-- The per-unit-scale contribution of one recipe item: each nutrient
coefficient is `base.nutrient * reference_grams / 100`, the reflux
coefficient is `base.gerd * reference_grams` (an item whose ingredient
is missing from `ING_DB` contributes zero). -/
def ingCoeff (item : String × ℚ) : MacroAcc :=
  match ING_DB.lookup item.1 with
  | none => ⟨0, 0, 0, 0, 0⟩
  | some base =>
    ⟨base.carbs * item.2 / 100, base.protein * item.2 / 100,
     base.fat * item.2 / 100, base.kcal * item.2 / 100, base.gerd * item.2⟩

/-- Componentwise sum of the per-item coefficients of a recipe. -/
def recipeCoeff : List (String × ℚ) → MacroAcc
  | [] => ⟨0, 0, 0, 0, 0⟩
  | i :: l =>
    let c := ingCoeff i
    let r := recipeCoeff l
    ⟨c.carbs + r.carbs, c.protein + r.protein, c.fat + r.fat,
     c.kcal + r.kcal, c.gerd + r.gerd⟩

/-- Closed form of the accumulation loop of `macros_for_dish`: starting
from totals `a`, the fold adds `scale` times the nutrient coefficients
and `scale / refTotal` times the reflux coefficient of the recipe. -/
lemma foldl_accIngredient (s R : ℚ) :
    ∀ (l : List (String × ℚ)) (a : MacroAcc),
      l.foldl (accIngredient s R) a =
        ⟨a.carbs + s * (recipeCoeff l).carbs,
         a.protein + s * (recipeCoeff l).protein,
         a.fat + s * (recipeCoeff l).fat,
         a.kcal + s * (recipeCoeff l).kcal,
         a.gerd + s / R * (recipeCoeff l).gerd⟩ := by
  intro l
  induction l with
  | nil =>
    intro a
    simp [recipeCoeff]
  | cons i l ih =>
    intro a
    rw [List.foldl_cons, ih]
    cases hl : ING_DB.lookup i.1 with
    | none =>
      simp only [accIngredient, hl, recipeCoeff, ingCoeff]
      refine MacroAcc.mk.injEq .. ▸ ?_
      norm_num
    | some base =>
      simp only [accIngredient, hl, recipeCoeff, ingCoeff]
      refine MacroAcc.mk.injEq .. ▸ ?_
      refine ⟨by ring, by ring, by ring, by ring, by ring⟩

/-- Closed form of `macrosAcc`: with `R` the guarded reference total and
`C` the recipe coefficients, the pre-rounding totals at serving weight
`g` are `g / R * C.nutrient` and the pre-clamp reflux load is
`g / R / R * C.gerd`. -/
lemma macrosAcc_closed (recipe : List (String × ℚ)) (g : ℚ) :
    macrosAcc recipe g =
      ⟨g / refTotalOf recipe * (recipeCoeff recipe).carbs,
       g / refTotalOf recipe * (recipeCoeff recipe).protein,
       g / refTotalOf recipe * (recipeCoeff recipe).fat,
       g / refTotalOf recipe * (recipeCoeff recipe).kcal,
       g / refTotalOf recipe / refTotalOf recipe * (recipeCoeff recipe).gerd⟩ := by
  unfold macrosAcc
  rw [foldl_accIngredient]
  simp

/-- C2: `compute_macros` (`macros_for_dish`) on a dish identifier that
is not in the recipe table returns the all-zero result for every
serving weight, and being a total function it raises no error. -/
theorem macros_for_dish_unknown_dish_zero (dish : String) (grams : ℚ)
    (h : DISH_RECIPES.lookup dish = none) :
    macros_for_dish dish grams =
      { carbs_g := 0, protein_g := 0, fat_g := 0, kcal := 0, gerd := 0 } := by
  unfold macros_for_dish
  rw [h]
  norm_num

/-- Witness for C2: the concrete identifier `"mystery_dish"` is not in
the recipe table, and `macros_for_dish` returns the all-zero result at
serving weight 200. -/
theorem macros_for_dish_unknown_dish_zero_witness :
    DISH_RECIPES.lookup "mystery_dish" = none ∧
      macros_for_dish "mystery_dish" 200 =
        { carbs_g := 0, protein_g := 0, fat_g := 0, kcal := 0, gerd := 0 } := by
  have h : DISH_RECIPES.lookup "mystery_dish" = none := by
    simp [DISH_RECIPES, List.lookup]
  exact ⟨h, macros_for_dish_unknown_dish_zero "mystery_dish" 200 h⟩

/-- C3: for a dish in the recipe table and a positive serving weight
`g`, each of the four pre-rounding nutrient totals of `compute_macros`
(the accumulated carbs, protein, fat and kcal of `macrosAcc`) at
serving weight `2 * g` is twice its value at serving weight `g`. -/
theorem macrosAcc_nutrients_scale_linearly (dish : String)
    (recipe : List (String × ℚ)) (g : ℚ)
    (hdish : DISH_RECIPES.lookup dish = some recipe) (hg : 0 < g) :
    (macrosAcc recipe (2 * g)).carbs = 2 * (macrosAcc recipe g).carbs ∧
    (macrosAcc recipe (2 * g)).protein = 2 * (macrosAcc recipe g).protein ∧
    (macrosAcc recipe (2 * g)).fat = 2 * (macrosAcc recipe g).fat ∧
    (macrosAcc recipe (2 * g)).kcal = 2 * (macrosAcc recipe g).kcal := by
  rw [macrosAcc_closed, macrosAcc_closed]
  refine ⟨by ring, by ring, by ring, by ring⟩

/-- Witness for C3: the dish `"omelette"` is in the recipe table, 100 is
a positive serving weight, and the four pre-rounding totals double from
serving weight 100 to 200. -/
theorem macrosAcc_nutrients_scale_linearly_witness :
    DISH_RECIPES.lookup "omelette" = some [("egg_whole", 120), ("oil", 5)] ∧
    (0 : ℚ) < 100 ∧
    ((macrosAcc [("egg_whole", 120), ("oil", 5)] (2 * 100)).carbs =
       2 * (macrosAcc [("egg_whole", 120), ("oil", 5)] 100).carbs ∧
     (macrosAcc [("egg_whole", 120), ("oil", 5)] (2 * 100)).protein =
       2 * (macrosAcc [("egg_whole", 120), ("oil", 5)] 100).protein ∧
     (macrosAcc [("egg_whole", 120), ("oil", 5)] (2 * 100)).fat =
       2 * (macrosAcc [("egg_whole", 120), ("oil", 5)] 100).fat ∧
     (macrosAcc [("egg_whole", 120), ("oil", 5)] (2 * 100)).kcal =
       2 * (macrosAcc [("egg_whole", 120), ("oil", 5)] 100).kcal) := by
  have h : DISH_RECIPES.lookup "omelette" = some [("egg_whole", 120), ("oil", 5)] := by
    simp [DISH_RECIPES, List.lookup]
  exact ⟨h, by norm_num,
    macrosAcc_nutrients_scale_linearly "omelette" [("egg_whole", 120), ("oil", 5)] 100 h
      (by norm_num)⟩

/-- C1 counterexample: the reflux-load field returned by
`macros_for_dish` is NOT invariant under serving-size rescaling. The
dish `"omelette"` is in the recipe table, 125 and 250 are positive
serving weights, yet the returned `gerd` is 7/125 at 125 g and 14/125
at 250 g. -/
theorem macros_for_dish_gerd_not_invariant :
    (DISH_RECIPES.lookup "omelette").isSome ∧
    (0 : ℚ) < 125 ∧ (0 : ℚ) < 250 ∧
    (macros_for_dish "omelette" 125).gerd = 7 / 125 ∧
    (macros_for_dish "omelette" 250).gerd = 14 / 125 ∧
    (macros_for_dish "omelette" 125).gerd ≠ (macros_for_dish "omelette" 250).gerd := by
  have hl : DISH_RECIPES.lookup "omelette" = some [("egg_whole", 120), ("oil", 5)] := by
    simp [DISH_RECIPES, List.lookup]
  have hc : recipeCoeff [("egg_whole", (120 : ℚ)), ("oil", 5)] =
      ⟨33/25 + 0, 378/25 + 0, 12 + 5, 858/5 + 45, 6 + 1⟩ := by
    simp [recipeCoeff, ingCoeff, ING_DB, List.lookup]
    norm_num
  have hr : refTotalOf [("egg_whole", (120 : ℚ)), ("oil", 5)] = 125 := by
    simp [refTotalOf]
    norm_num
  have h125 : (macros_for_dish "omelette" 125).gerd = 7 / 125 := by
    unfold macros_for_dish
    rw [hl]
    simp only [macrosAcc_closed, hc, hr]
    norm_num [npClip, max_def, min_def]
  have h250 : (macros_for_dish "omelette" 250).gerd = 14 / 125 := by
    unfold macros_for_dish
    rw [hl]
    simp only [macrosAcc_closed, hc, hr]
    norm_num [npClip, max_def, min_def]
  refine ⟨by rw [hl]; rfl, by norm_num, by norm_num, h125, h250, ?_⟩
  rw [h125, h250]
  norm_num

/-- C1 amended: for a dish in the recipe table and a positive serving
weight `g`, the accumulated (pre-clamp) reflux load of `compute_macros`
scales linearly with the serving weight — it doubles when `g` doubles —
and the returned `gerd` field is that accumulated load clamped to
`[-0.3, 1.0]`. -/
theorem macrosAcc_gerd_scales_linearly (dish : String)
    (recipe : List (String × ℚ)) (g : ℚ)
    (hdish : DISH_RECIPES.lookup dish = some recipe) (hg : 0 < g) :
    (macrosAcc recipe (2 * g)).gerd = 2 * (macrosAcc recipe g).gerd ∧
    (macros_for_dish dish g).gerd = npClip (-0.3) 1.0 (macrosAcc recipe g).gerd := by
  constructor
  · rw [macrosAcc_closed, macrosAcc_closed]
    ring
  · unfold macros_for_dish
    rw [hdish]

/-- Witness for C1 amended: at the dish `"omelette"` and serving
weight 125 the hypotheses hold and the pre-clamp reflux load doubles
from 125 g to 250 g. -/
theorem macrosAcc_gerd_scales_linearly_witness :
    DISH_RECIPES.lookup "omelette" = some [("egg_whole", 120), ("oil", 5)] ∧
    (0 : ℚ) < 125 ∧
    ((macrosAcc [("egg_whole", 120), ("oil", 5)] (2 * 125)).gerd =
       2 * (macrosAcc [("egg_whole", 120), ("oil", 5)] 125).gerd ∧
     (macros_for_dish "omelette" 125).gerd =
       npClip (-0.3) 1.0 (macrosAcc [("egg_whole", 120), ("oil", 5)] 125).gerd) := by
  have h : DISH_RECIPES.lookup "omelette" = some [("egg_whole", 120), ("oil", 5)] := by
    simp [DISH_RECIPES, List.lookup]
  exact ⟨h, by norm_num,
    macrosAcc_gerd_scales_linearly "omelette" [("egg_whole", 120), ("oil", 5)] 125 h
      (by norm_num)⟩

/-- C4: for all rational inputs, including out-of-range ones, the
wellness index lies in the closed interval `[0, 100]`. -/
theorem wellness_index_generic_bounded
    (kcal protein_g sleep_h exercise_min stress_0_10 : ℚ) :
    0 ≤ wellness_index_generic kcal protein_g sleep_h exercise_min stress_0_10 ∧
    wellness_index_generic kcal protein_g sleep_h exercise_min stress_0_10 ≤ 100 := by
  unfold wellness_index_generic
  dsimp only
  have b1l := clamp01_nonneg (1 - |sleep_h - 7.5| / 4.0)
  have b1u := clamp01_le_one (1 - |sleep_h - 7.5| / 4.0)
  have b2l := clamp01_nonneg (min exercise_min 60 / 60.0)
  have b2u := clamp01_le_one (min exercise_min 60 / 60.0)
  have b3l := clamp01_nonneg (1 - stress_0_10 / 10.0)
  have b3u := clamp01_le_one (1 - stress_0_10 / 10.0)
  have b4l := clamp01_nonneg (min protein_g 120 / 120.0)
  have b4u := clamp01_le_one (min protein_g 120 / 120.0)
  have b5l := clamp01_nonneg (min kcal 3200 / 3200.0)
  have b5u := clamp01_le_one (min kcal 3200 / 3200.0)
  constructor
  · exact pyRound1_nonneg (by nlinarith)
  · exact pyRound1_le_100 (by nlinarith)

/-- C5: for every target date and today (as day ordinals), the plan's
`days_left` is `max 1 (target_d - today)`; it is always at least 1 — in
particular 1 when the target date is on or before today — so the
per-day change is a true quotient (no division by zero). -/
theorem goal_panel_days_left_floor (start_w target_w : ℚ) (target_d today : ℤ) :
    (goalPlanCalc start_w target_w target_d today).days_left = max 1 (target_d - today) ∧
    1 ≤ (goalPlanCalc start_w target_w target_d today).days_left ∧
    (target_d ≤ today → (goalPlanCalc start_w target_w target_d today).days_left = 1) ∧
    ((goalPlanCalc start_w target_w target_d today).days_left : ℚ) ≠ 0 ∧
    (goalPlanCalc start_w target_w target_d today).per_day *
        ((goalPlanCalc start_w target_w target_d today).days_left : ℚ) =
      (goalPlanCalc start_w target_w target_d today).kg_change := by
  have hone : 1 ≤ (goalPlanCalc start_w target_w target_d today).days_left :=
    le_max_left _ _
  have hne : ((goalPlanCalc start_w target_w target_d today).days_left : ℚ) ≠ 0 := by
    have : (0 : ℤ) < (goalPlanCalc start_w target_w target_d today).days_left := by omega
    exact_mod_cast this.ne.symm
  refine ⟨rfl, hone, ?_, hne, ?_⟩
  · intro h
    show max 1 (target_d - today) = 1
    omega
  · show (target_w - start_w) / ((goalPlanCalc start_w target_w target_d today).days_left : ℚ) *
        ((goalPlanCalc start_w target_w target_d today).days_left : ℚ) = target_w - start_w
    exact div_mul_cancel₀ _ hne

/-- Witness for C5: with a target date 7 days before today, `days_left`
is 1 (the past-deadline hypothesis is discharged concretely). -/
theorem goal_panel_days_left_floor_witness :
    (goalPlanCalc 70 65 5 12).days_left = 1 :=
  (goal_panel_days_left_floor 70 65 5 12).2.2.1 (by decide)

/-- C8: `protein_target` is the multiplier table keyed by goal type:
`round(w * 1.8, 1)` for `"gain"`, `round(w * 1.6, 1)` for `"loss"`, and
`round(w * 1.5, 1)` for any other goal type. -/
theorem protein_target_multiplier_table (weight : ℚ) (goal_type : String) :
    (goal_type = "gain" → protein_target weight goal_type = pyRound1 (weight * 1.8)) ∧
    (goal_type = "loss" → protein_target weight goal_type = pyRound1 (weight * 1.6)) ∧
    (goal_type ≠ "gain" → goal_type ≠ "loss" →
      protein_target weight goal_type = pyRound1 (weight * 1.5)) := by
  unfold protein_target
  refine ⟨fun h => ?_, fun h => ?_, fun h1 h2 => ?_⟩
  · simp [h]
  · have : goal_type ≠ "gain" := by rw [h]; decide
    simp [h, this]
  · simp [h1, h2]

/-- Witness for C8: at weight 70 each branch hypothesis can be
discharged concretely; the `"gain"` branch gives
`round(70 * 1.8, 1) = 126`. -/
theorem protein_target_multiplier_table_witness :
    protein_target 70 "gain" = 126 := by
  have h := (protein_target_multiplier_table 70 "gain").1 rfl
  rw [h]
  norm_num [pyRound1, bankersRound]

/-- C10: the standalone `daily_weight_change` helper returns 0 whenever
`days_left ≤ 0`, and `(target_kg - current_kg) / days_left` whenever
`days_left > 0` — a past-or-today deadline reports a zero per-day
change instead of flooring the remaining time to one day. -/
theorem daily_weight_change_zero_floor (target_kg current_kg days_left : ℚ) :
    (days_left ≤ 0 → daily_weight_change target_kg current_kg days_left = 0) ∧
    (0 < days_left →
      daily_weight_change target_kg current_kg days_left =
        (target_kg - current_kg) / days_left) := by
  unfold daily_weight_change
  constructor
  · intro h
    rw [if_pos h]
    norm_num
  · intro h
    rw [if_neg (not_le.mpr h)]

/-- Witness for C10: a past deadline (`days_left = 0`) yields a zero
per-day change at concrete inputs. -/
theorem daily_weight_change_zero_floor_witness :
    daily_weight_change 65 70 0 = 0 :=
  (daily_weight_change_zero_floor 65 70 0).1 (by norm_num)

/-- Inserting into the sorted list grows the length by one. -/
lemma length_insertByDate (r : LogRec) (l : List LogRec) :
    (insertByDate r l).length = l.length + 1 := by
  induction l with
  | nil => rfl
  | cons x xs ih =>
    unfold insertByDate
    split_ifs
    · simp [ih]
    · simp

/-- Sorting by date preserves the length. -/
lemma length_sortByDate (l : List LogRec) : (sortByDate l).length = l.length := by
  induction l with
  | nil => rfl
  | cons x xs ih =>
    show (insertByDate x (sortByDate xs)).length = xs.length + 1
    rw [length_insertByDate, ih]

/-- If some record has a parseable date, the trailing 7-record window is
nonempty. -/
lemma weekWindow_ne_nil {df : List LogRec}
    (h : df.filter (fun r => r.date.isSome) ≠ []) : weekWindow df ≠ [] := by
  unfold weekWindow
  dsimp only
  intro hnil
  have hlen := congrArg List.length hnil
  rw [List.length_drop, length_sortByDate] at hlen
  have hpos : 0 < (df.filter (fun r => r.date.isSome)).length :=
    List.length_pos.mpr h
  simp at hlen
  omega

/-- C6: when at least one record has a parseable date, `week_summary`
returns a summary whose `avg_wellness` (resp. `avg_protein`) is the
arithmetic mean of the wellness (resp. protein) values present in the
trailing 7-record window, and is null when the field is absent across
the whole window. -/
theorem week_summary_avg_fields (df : List LogRec)
    (h : df.filter (fun r => r.date.isSome) ≠ []) :
    (week_summary df).map WeekOut.avg_wellness =
      some (if ((weekWindow df).filterMap LogRec.wellness) = [] then none
            else some (((weekWindow df).filterMap LogRec.wellness).sum /
                (((weekWindow df).filterMap LogRec.wellness).length : ℚ))) ∧
    (week_summary df).map WeekOut.avg_protein =
      some (if ((weekWindow df).filterMap LogRec.protein) = [] then none
            else some (((weekWindow df).filterMap LogRec.protein).sum /
                (((weekWindow df).filterMap LogRec.protein).length : ℚ))) := by
  have hdf : ¬ df.isEmpty = true := by
    intro hh
    exact h (by simp [List.isEmpty_iff.mp hh])
  have hwin : ¬ (weekWindow df).isEmpty = true := by
    intro hh
    exact weekWindow_ne_nil h (List.isEmpty_iff.mp hh)
  unfold week_summary
  dsimp only
  rw [if_neg hdf, if_neg hwin]
  constructor
  · simp [nanMean, List.filterMap_map, List.isEmpty_iff, List.length_eq_zero,
      Function.comp]
  · simp [nanMean, List.filterMap_map, List.isEmpty_iff, List.length_eq_zero,
      Function.comp]

/-- C7: when at least one record has a parseable date, the
`weight_change` of `week_summary` is the weight of the last record of
the trailing 7-record window minus the weight of its first record
(null if either endpoint weight is missing) provided at least 2
non-null weight observations exist in the window, and is null when
fewer than 2 exist. -/
theorem week_summary_weight_change_rule (df : List LogRec)
    (h : df.filter (fun r => r.date.isSome) ≠ []) :
    (2 ≤ ((weekWindow df).filterMap LogRec.weight).length →
      (week_summary df).map WeekOut.weight_change =
        some (optSub (((weekWindow df).getLast?).bind LogRec.weight)
          (((weekWindow df).head?).bind LogRec.weight))) ∧
    (((weekWindow df).filterMap LogRec.weight).length < 2 →
      (week_summary df).map WeekOut.weight_change = some none) := by
  have hdf : ¬ df.isEmpty = true := by
    intro hh
    exact h (by simp [List.isEmpty_iff.mp hh])
  have hwin : ¬ (weekWindow df).isEmpty = true := by
    intro hh
    exact weekWindow_ne_nil h (List.isEmpty_iff.mp hh)
  unfold week_summary
  dsimp only
  rw [if_neg hdf, if_neg hwin]
  constructor
  · intro hc
    simp [if_pos hc]
  · intro hc
    simp only [show (fun x : LogRec => x.weight) = LogRec.weight from rfl]
    rw [if_neg (by omega)]
    simp

/-- A concrete three-record log: two parseable dates (out of order), one
unparseable; wellness present once, protein absent in the window, two
weight observations. -/
def sampleLogs : List LogRec := [
  ⟨some 2, some 10, none, some 60⟩,
  ⟨some 1, none, none, some 58⟩,
  ⟨none, some 5, some 50, some 99⟩]

/-- Witness for C6: `sampleLogs` has a parseable date, and the average
fields of its summary follow the stated mean/null rule. -/
theorem week_summary_avg_fields_witness :
    sampleLogs.filter (fun r => r.date.isSome) ≠ [] ∧
    ((week_summary sampleLogs).map WeekOut.avg_wellness =
      some (if ((weekWindow sampleLogs).filterMap LogRec.wellness) = [] then none
            else some (((weekWindow sampleLogs).filterMap LogRec.wellness).sum /
                (((weekWindow sampleLogs).filterMap LogRec.wellness).length : ℚ))) ∧
     (week_summary sampleLogs).map WeekOut.avg_protein =
      some (if ((weekWindow sampleLogs).filterMap LogRec.protein) = [] then none
            else some (((weekWindow sampleLogs).filterMap LogRec.protein).sum /
                (((weekWindow sampleLogs).filterMap LogRec.protein).length : ℚ)))) := by
  have h : sampleLogs.filter (fun r => r.date.isSome) ≠ [] := by
    simp [sampleLogs]
  exact ⟨h, week_summary_avg_fields sampleLogs h⟩

/-- Witness for C7: `sampleLogs` has a parseable date and two non-null
weights in its window, so `weight_change` is last-minus-first. -/
theorem week_summary_weight_change_rule_witness :
    sampleLogs.filter (fun r => r.date.isSome) ≠ [] ∧
    2 ≤ ((weekWindow sampleLogs).filterMap LogRec.weight).length ∧
    (week_summary sampleLogs).map WeekOut.weight_change =
      some (optSub (((weekWindow sampleLogs).getLast?).bind LogRec.weight)
        (((weekWindow sampleLogs).head?).bind LogRec.weight)) := by
  have h : sampleLogs.filter (fun r => r.date.isSome) ≠ [] := by
    simp [sampleLogs]
  have h2 : 2 ≤ ((weekWindow sampleLogs).filterMap LogRec.weight).length := by
    simp [weekWindow, sampleLogs, sortByDate, insertByDate, dateKey]
  exact ⟨h, h2, (week_summary_weight_change_rule sampleLogs h).1 h2⟩

/-- A matching row keeps matching after field replacement, a
non-matching row is untouched: the matching sublist of the updated
table is the matching sublist with all optional fields replaced. -/
lemma filter_match_map_upsert (p d : String) (data : DailyFields) :
    ∀ s : List DailyRow,
      (s.map (fun r => if dailyMatch p d r then ⟨r.person, r.log_date, data⟩ else r)).filter
          (dailyMatch p d) =
        (s.filter (dailyMatch p d)).map (fun _ => (⟨p, d, data⟩ : DailyRow)) := by
  intro s
  induction s with
  | nil => rfl
  | cons x xs ih =>
    cases hx : dailyMatch p d x with
    | false => simp [List.filter_cons, hx, ih]
    | true =>
      have hpd : x.person = p ∧ x.log_date = d := by
        simpa [dailyMatch] using hx
      have hm : dailyMatch p d (⟨p, d, data⟩ : DailyRow) = true := by
        simp [dailyMatch]
      simp [List.filter_cons, hx, hpd.1, hpd.2, hm, ih]

/-- The non-matching rows of the table are untouched by the update. -/
lemma filter_nonmatch_map_upsert (p d : String) (data : DailyFields) :
    ∀ s : List DailyRow,
      (s.map (fun r => if dailyMatch p d r then ⟨r.person, r.log_date, data⟩ else r)).filter
          (fun r => !(dailyMatch p d r)) =
        s.filter (fun r => !(dailyMatch p d r)) := by
  intro s
  induction s with
  | nil => rfl
  | cons x xs ih =>
    cases hx : dailyMatch p d x with
    | false => simp [List.filter_cons, hx, ih]
    | true =>
      have hpd : x.person = p ∧ x.log_date = d := by
        simpa [dailyMatch] using hx
      have hm : dailyMatch p d (⟨p, d, data⟩ : DailyRow) = true := by
        simp [dailyMatch]
      simp [List.filter_cons, hx, hpd.1, hpd.2, hm, ih]

/-- C9: upserting a daily check-in for a `(person, log_date)` key that
already has exactly one row (the UNIQUE constraint) replaces every
optional field of that row with the supplied data — an unsupplied field
becomes null, since `kwargs.get(c, None)` maps it to `none` in `data` —
keeps only the person and date keys, leaves every other row unchanged,
and the table still holds exactly one row for that key. -/
theorem upsert_daily_replaces_row (s : List DailyRow) (p d : String)
    (data : DailyFields) (r0 : DailyRow)
    (h : s.filter (dailyMatch p d) = [r0]) :
    (upsert_daily s p d data).filter (dailyMatch p d) = [⟨p, d, data⟩] ∧
    (upsert_daily s p d data).filter (fun r => !(dailyMatch p d r)) =
      s.filter (fun r => !(dailyMatch p d r)) := by
  have hr0 : r0 ∈ s.filter (dailyMatch p d) := by
    rw [h]
    exact List.mem_singleton.mpr rfl
  have hmem := List.mem_filter.mp hr0
  have hany : s.any (dailyMatch p d) = true :=
    List.any_eq_true.mpr ⟨r0, hmem.1, hmem.2⟩
  unfold upsert_daily
  rw [if_pos hany]
  constructor
  · rw [filter_match_map_upsert, h]
    rfl
  · exact filter_nonmatch_map_upsert p d data s

/-- A concrete two-row daily table. -/
def sampleDaily : List DailyRow := [
  ⟨"Sushil", "2025-01-01",
    ⟨some 48, some 7, none, none, none, none, none, none, none, none, none, none⟩⟩,
  ⟨"Chido", "2025-01-01",
    ⟨some 70, none, none, none, none, none, none, none, none, none, none, none⟩⟩]

/-- A concrete partial update: some fields supplied, the rest (in
particular the previously present sleep hours) unsupplied, hence null. -/
def sampleFields : DailyFields :=
  ⟨some 49, none, some 30, some 7, none, none, none, none, none, none, none, some "ok"⟩

/-- Witness for C9: on the concrete table, upserting for
`("Sushil", "2025-01-01")` replaces that row's fields with
`sampleFields` and leaves the other person's row unchanged. -/
theorem upsert_daily_replaces_row_witness :
    sampleDaily.filter (dailyMatch "Sushil" "2025-01-01") =
      [⟨"Sushil", "2025-01-01",
        ⟨some 48, some 7, none, none, none, none, none, none, none, none, none, none⟩⟩] ∧
    ((upsert_daily sampleDaily "Sushil" "2025-01-01" sampleFields).filter
        (dailyMatch "Sushil" "2025-01-01") = [⟨"Sushil", "2025-01-01", sampleFields⟩] ∧
     (upsert_daily sampleDaily "Sushil" "2025-01-01" sampleFields).filter
        (fun r => !(dailyMatch "Sushil" "2025-01-01" r)) =
       sampleDaily.filter (fun r => !(dailyMatch "Sushil" "2025-01-01" r))) := by
  have h : sampleDaily.filter (dailyMatch "Sushil" "2025-01-01") =
      [⟨"Sushil", "2025-01-01",
        ⟨some 48, some 7, none, none, none, none, none, none, none, none, none, none⟩⟩] := by
    simp [sampleDaily, dailyMatch]
  exact ⟨h, upsert_daily_replaces_row sampleDaily "Sushil" "2025-01-01" sampleFields _ h⟩
